import Mathlib

/-!
Shallow embedding of `src/esp32_servo_control/esp32_servo_control.ino`
(ESP32 servo controller for the waste-sorting pipeline).

The sketch has three entry points:
* `setup()` — initialisation (moves the servo to the home position);
* `loop()` — the cooperative control cycle: task 1 dispatches a completed
  serial command, task 2 returns the servo to home after the dwell;
* `serialEvent()` — drains newly arrived serial bytes into `inputString`,
  setting `stringComplete` when a newline terminator is seen.

Machine integers: `millis()` and `lastMoveTime` are `unsigned long`
(32 bits on the ESP32), so time arithmetic is carried out modulo `2^32`;
timestamps are modelled as `Nat` reduced modulo `U32` wherever the C code
stores or subtracts them.

Side effects (`servoMotor.write` and `Serial.println`) are modelled as an
explicit list of `Output` events produced by each step.
-/

/-- Home (neutral) angular position: `const int POS_HOME = 0` (line 31). -/
def POS_HOME : Nat := 0

/-- Plastic-bin position: `const int POS_PLASTICO = 60` (line 32). -/
def POS_PLASTICO : Nat := 60

/-- Organic-bin position: `const int POS_ORGANICO = 120` (line 33). -/
def POS_ORGANICO : Nat := 120

/-- Metal-bin position: `const int POS_METAL = 180` (line 34). -/
def POS_METAL : Nat := 180

/-- Dwell before auto-return, ms: `const unsigned long RETURN_DELAY = 3000` (line 38). -/
def RETURN_DELAY : Nat := 3000

/-- Modulus of `unsigned long` arithmetic on the ESP32: `2^32`. -/
def U32 : Nat := 4294967296

/-- The sketch's global mutable state (lines 41-45), plus the last position
written to the servo (`servoMotor.write`), which the open-loop hardware holds. -/
structure SketchState where
  inputString : List Char
  stringComplete : Bool
  lastMoveTime : Nat
  needsReturn : Bool
  servoPos : Nat
  deriving Repr, DecidableEq

/-- State right after `setup()` (lines 49-61): empty buffer, no pending
command, timer idle, servo written to `POS_HOME`. -/
def initState : SketchState :=
  ⟨[], false, 0, false, POS_HOME⟩

/-- Observable side effects: `servoMotor.write p` (a `moveTo` of the actuator
driver) and `Serial.println msg` (one outbound line). -/
inductive Output where
  | moveTo : Nat → Output
  | line : String → Output
  deriving Repr, DecidableEq

/-- One byte handled by `serialEvent()` (lines 107-118): a newline sets
`stringComplete`; any other byte is appended to `inputString`. -/
def serialEventChar (s : SketchState) (c : Char) : SketchState :=
  if c = '\n' then { s with stringComplete := true }
  else { s with inputString := s.inputString ++ [c] }

/-- `serialEvent()` (lines 107-118): drains a chunk of arrived bytes,
processing each in order. -/
def serialEvent (s : SketchState) (bs : List Char) : SketchState :=
  bs.foldl serialEventChar s

/-- The character class stripped by Arduino `String::trim()`: the ESP32 core's
`trim` drops leading/trailing characters for which C `isspace` holds, i.e.
space, tab, newline, vertical tab, form feed, carriage return. -/
def isSpaceByte (c : Char) : Bool :=
  c = ' ' || c = '\t' || c = '\n' || c = '\x0b' || c = '\x0c' || c = '\r'

/-- Arduino `String::trim()` as called at line 66: strip leading and trailing
`isspace` characters. -/
def trimString (cs : List Char) : List Char :=
  ((cs.dropWhile isSpaceByte).reverse.dropWhile isSpaceByte).reverse

/-- The dispatch chain of `loop()` task 1 (lines 73-78): the position written
for a trimmed command, or `none` when no branch matches. -/
def dispatchPos (cmd : List Char) : Option Nat :=
  if cmd = "PLASTICO".toList then some POS_PLASTICO
  else if cmd = "ORGANICO".toList then some POS_ORGANICO
  else if cmd = "METAL".toList then some POS_METAL
  else none

/-- `millis() - lastMoveTime` in `unsigned long` (32-bit) arithmetic:
the elapsed count modulo `2^32` (line 93). -/
def elapsed32 (now last : Nat) : Nat :=
  ((now % U32) + U32 - last % U32) % U32

/-- The status line printed when the auto-return fires (line 94). -/
def homeMsg : String := "Regresando a la posición HOME."

/-- `loop()` task 1 (lines 65-90): when `stringComplete` is set, trim the
buffer, move the servo if the command matches a label, answer `OK`, record
`lastMoveTime := millis()`, arm `needsReturn`, and clear the buffer. `t1` is
the value of `millis()` at line 84. -/
def loopTask1 (t1 : Nat) (s : SketchState) : SketchState × List Output :=
  if s.stringComplete = true then
    let moved : SketchState × List Output :=
      match dispatchPos (trimString s.inputString) with
      | some p => ({ s with servoPos := p }, [Output.moveTo p])
      | none => (s, [])
    ({ moved.1 with inputString := [], stringComplete := false,
                    lastMoveTime := t1 % U32, needsReturn := true },
     moved.2 ++ [Output.line "OK"])
  else (s, [])

/-- `loop()` task 2 (lines 93-97): when `needsReturn` is armed and
`millis() - lastMoveTime > RETURN_DELAY` in 32-bit arithmetic, print the
status line, move the servo to `POS_HOME` and disarm. `t2` is the value of
`millis()` at line 93. -/
def loopTask2 (t2 : Nat) (s : SketchState) : SketchState × List Output :=
  if s.needsReturn = true ∧ RETURN_DELAY < elapsed32 t2 s.lastMoveTime then
    ({ s with servoPos := POS_HOME, needsReturn := false },
     [Output.line homeMsg, Output.moveTo POS_HOME])
  else (s, [])

/-- One iteration of `loop()` (lines 63-98): task 1 then task 2, collecting
side effects in order. `t1`, `t2` are the two `millis()` readings. -/
def loopIter (t1 t2 : Nat) (s : SketchState) : SketchState × List Output :=
  ((loopTask2 t2 (loopTask1 t1 s).1).1,
   (loopTask1 t1 s).2 ++ (loopTask2 t2 (loopTask1 t1 s).1).2)

/-- An event of an execution: either `serialEvent` drains a chunk of arrived
bytes, or one iteration of `loop()` runs at millisecond readings `t1`, `t2`.
The Arduino runtime interleaves the two arbitrarily (serialEvent runs between
loop iterations whenever bytes have arrived). -/
inductive Ev where
  | bytes : List Char → Ev
  | iter : Nat → Nat → Ev
  deriving Repr, DecidableEq

/-- One event's effect on the state and its outputs. -/
def stepEv (s : SketchState) : Ev → SketchState × List Output
  | Ev.bytes bs => (serialEvent s bs, [])
  | Ev.iter t1 t2 => loopIter t1 t2 s

/-- Run a whole schedule of events, concatenating outputs. -/
def run (s : SketchState) : List Ev → SketchState × List Output
  | [] => (s, [])
  | e :: es =>
    ((run (stepEv s e).1 es).1, (stepEv s e).2 ++ (run (stepEv s e).1 es).2)

/-- Run a sequence of `loop()` iterations with no intervening byte arrival.
`ts` lists the pairs of `millis()` readings of the iterations. -/
def runIters (s : SketchState) : List (Nat × Nat) → SketchState × List Output
  | [] => (s, [])
  | t :: ts =>
    ((runIters (loopIter t.1 t.2 s).1 ts).1,
     (loopIter t.1 t.2 s).2 ++ (runIters (loopIter t.1 t.2 s).1 ts).2)

/-- Number of `moveTo` calls in an output trace. -/
def countMoves : List Output → Nat
  | [] => 0
  | Output.moveTo _ :: os => countMoves os + 1
  | Output.line _ :: os => countMoves os

/-- Number of `OK` acknowledgment lines in an output trace. -/
def countOK : List Output → Nat
  | [] => 0
  | Output.moveTo _ :: os => countOK os
  | Output.line m :: os => (if m = "OK" then 1 else 0) + countOK os

/-- Number of `moveTo POS_HOME` (auto-return) calls in an output trace. -/
def countHome : List Output → Nat
  | [] => 0
  | Output.moveTo p :: os => (if p = POS_HOME then 1 else 0) + countHome os
  | Output.line _ :: os => countHome os

/-- The position of the last `moveTo` call in an output trace, if any. -/
def lastMoveOf : List Output → Option Nat
  | [] => none
  | Output.moveTo p :: os => some ((lastMoveOf os).getD p)
  | Output.line _ :: os => lastMoveOf os

/-- Modelled from the spec: the character class of §4.1, "leading/trailing
whitespace or control characters", i.e. whitespace plus all ASCII control
characters. Used only to compare the spec's stripping with the code's
`trim`. -/
def isSpaceOrControlByte (c : Char) : Bool :=
  isSpaceByte c || c.toNat < 32 || c.toNat = 127

/-- Modelled from the spec: stripping of §4.1 — buffer content "with any
leading/trailing whitespace or control characters stripped". -/
def specStrip (cs : List Char) : List Char :=
  ((cs.dropWhile isSpaceOrControlByte).reverse.dropWhile isSpaceOrControlByte).reverse

/-! ### Basic lemmas about the receiver and the two loop tasks -/

theorem serialEventChar_not_newline (s : SketchState) (c : Char) (h : ¬ c = '\n') :
    serialEventChar s c = { s with inputString := s.inputString ++ [c] } := by
  simp [serialEventChar, h]

theorem serialEvent_append (s : SketchState) (b1 b2 : List Char) :
    serialEvent s (b1 ++ b2) = serialEvent (serialEvent s b1) b2 := by
  simp [serialEvent, List.foldl_append]

theorem serialEvent_no_newline (s : SketchState) (bs : List Char) (h : '\n' ∉ bs) :
    serialEvent s bs = { s with inputString := s.inputString ++ bs } := by
  induction bs generalizing s with
  | nil => simp [serialEvent]
  | cons c cs ih =>
    have hc : ¬ c = '\n' := by
      intro hcn
      exact h (by simp [hcn])
    have hcs : '\n' ∉ cs := by
      intro hm
      exact h (List.mem_cons_of_mem _ hm)
    show serialEvent (serialEventChar s c) cs = _
    rw [serialEventChar_not_newline s c hc, ih _ hcs]
    simp

theorem serialEvent_line (s : SketchState) (bs : List Char) (h : '\n' ∉ bs) :
    serialEvent s (bs ++ ['\n']) =
      { s with inputString := s.inputString ++ bs, stringComplete := true } := by
  rw [serialEvent_append, serialEvent_no_newline s bs h]
  show serialEventChar _ '\n' = _
  simp [serialEventChar]

theorem loopTask1_not_complete (t1 : Nat) (s : SketchState) (h : s.stringComplete = false) :
    loopTask1 t1 s = (s, []) := by
  simp [loopTask1, h]

theorem loopTask1_match (t1 : Nat) (s : SketchState) (p : Nat)
    (h : s.stringComplete = true) (hd : dispatchPos (trimString s.inputString) = some p) :
    loopTask1 t1 s =
      (⟨[], false, t1 % U32, true, p⟩, [Output.moveTo p, Output.line "OK"]) := by
  simp [loopTask1, h, hd]

theorem loopTask1_nomatch (t1 : Nat) (s : SketchState)
    (h : s.stringComplete = true) (hd : dispatchPos (trimString s.inputString) = none) :
    loopTask1 t1 s =
      (⟨[], false, t1 % U32, true, s.servoPos⟩, [Output.line "OK"]) := by
  simp [loopTask1, h, hd]

theorem loopTask2_disarmed (t2 : Nat) (s : SketchState) (h : s.needsReturn = false) :
    loopTask2 t2 s = (s, []) := by
  simp [loopTask2, h]

theorem loopTask2_not_due (t2 : Nat) (s : SketchState)
    (h : elapsed32 t2 s.lastMoveTime ≤ RETURN_DELAY) :
    loopTask2 t2 s = (s, []) := by
  simp only [loopTask2, ite_eq_right_iff]
  intro hc
  exact absurd hc.2 (not_lt.mpr h)

theorem loopTask2_fire (t2 : Nat) (s : SketchState)
    (h : s.needsReturn = true) (hd : RETURN_DELAY < elapsed32 t2 s.lastMoveTime) :
    loopTask2 t2 s =
      ({ s with servoPos := POS_HOME, needsReturn := false },
       [Output.line homeMsg, Output.moveTo POS_HOME]) := by
  simp [loopTask2, h, hd]

theorem elapsed32_self (t : Nat) : elapsed32 t (t % U32) = 0 := by
  simp [elapsed32, U32]

theorem serialEvent_preserves (s : SketchState) (bs : List Char) :
    (serialEvent s bs).needsReturn = s.needsReturn ∧
    (serialEvent s bs).lastMoveTime = s.lastMoveTime ∧
    (serialEvent s bs).servoPos = s.servoPos := by
  induction bs generalizing s with
  | nil => exact ⟨rfl, rfl, rfl⟩
  | cons c cs ih =>
    show (serialEvent (serialEventChar s c) cs).needsReturn = _ ∧ _ ∧ _
    rcases ih (serialEventChar s c) with ⟨h1, h2, h3⟩
    refine ⟨h1.trans ?_, h2.trans ?_, h3.trans ?_⟩ <;>
      simp [serialEventChar] <;> split <;> rfl

theorem loopTask2_nofire (t2 : Nat) (s : SketchState)
    (h : ¬ (s.needsReturn = true ∧ RETURN_DELAY < elapsed32 t2 s.lastMoveTime)) :
    loopTask2 t2 s = (s, []) := by
  rw [loopTask2, if_neg h]

theorem loopIter_quiet (t1 t2 : Nat) (s : SketchState)
    (h1 : s.stringComplete = false) (h2 : s.needsReturn = false) :
    loopIter t1 t2 s = (s, []) := by
  rw [loopIter, loopTask1_not_complete t1 s h1, loopTask2_disarmed t2 s h2]
  rfl

theorem loopIter_idle_not_due (t1 t2 : Nat) (s : SketchState)
    (h1 : s.stringComplete = false) (h2 : elapsed32 t2 s.lastMoveTime ≤ RETURN_DELAY) :
    loopIter t1 t2 s = (s, []) := by
  rw [loopIter, loopTask1_not_complete t1 s h1, loopTask2_not_due t2 s h2]
  rfl

theorem loopIter_idle_fire (t1 t2 : Nat) (s : SketchState)
    (h1 : s.stringComplete = false) (h2 : s.needsReturn = true)
    (h3 : RETURN_DELAY < elapsed32 t2 s.lastMoveTime) :
    loopIter t1 t2 s =
      ({ s with servoPos := POS_HOME, needsReturn := false },
       [Output.line homeMsg, Output.moveTo POS_HOME]) := by
  rw [loopIter, loopTask1_not_complete t1 s h1, loopTask2_fire t2 s h2 h3]
  rfl

/-- Dispatching a full recognized line from a state with an empty buffer:
the servo is moved once, `OK` is sent once, the timer is armed at `t1`. -/
theorem dispatch_line_match (s : SketchState) (L : List Char) (p t1 t2 : Nat)
    (hbuf : s.inputString = []) (hL : '\n' ∉ L)
    (hp : dispatchPos (trimString L) = some p)
    (ht : elapsed32 t2 (t1 % U32) ≤ RETURN_DELAY) :
    loopIter t1 t2 (serialEvent s (L ++ ['\n'])) =
      (⟨[], false, t1 % U32, true, p⟩, [Output.moveTo p, Output.line "OK"]) := by
  rw [serialEvent_line s L hL, loopIter]
  rw [loopTask1_match t1 _ p rfl (by simpa [hbuf] using hp)]
  rw [loopTask2_not_due t2 _ (by simpa [elapsed32] using ht)]
  rfl

/-- Dispatching a full unrecognized line from a state with an empty buffer:
no servo move, `OK` is still sent once, and the timer is still armed at `t1`. -/
theorem dispatch_line_nomatch (s : SketchState) (L : List Char) (t1 t2 : Nat)
    (hbuf : s.inputString = []) (hL : '\n' ∉ L)
    (hp : dispatchPos (trimString L) = none)
    (ht : elapsed32 t2 (t1 % U32) ≤ RETURN_DELAY) :
    loopIter t1 t2 (serialEvent s (L ++ ['\n'])) =
      (⟨[], false, t1 % U32, true, s.servoPos⟩, [Output.line "OK"]) := by
  rw [serialEvent_line s L hL, loopIter]
  rw [loopTask1_nomatch t1 _ (by rfl) (by simpa [hbuf] using hp)]
  rw [loopTask2_not_due t2 _ (by simpa [elapsed32] using ht)]
  rfl

theorem run_nil (s : SketchState) : run s [] = (s, []) := rfl

theorem run_eq_of_step {s s' s'' : SketchState} {e : Ev} {es : List Ev}
    {o os : List Output}
    (h1 : stepEv s e = (s', o)) (h2 : run s' es = (s'', os)) :
    run s (e :: es) = (s'', o ++ os) := by
  simp [run, h1, h2]

theorem run_append (s : SketchState) (es1 es2 : List Ev) :
    run s (es1 ++ es2) =
      ((run (run s es1).1 es2).1, (run s es1).2 ++ (run (run s es1).1 es2).2) := by
  induction es1 generalizing s with
  | nil => simp [run]
  | cons e es ih => simp [run, ih]

theorem countMoves_append (a b : List Output) :
    countMoves (a ++ b) = countMoves a + countMoves b := by
  induction a with
  | nil => simp [countMoves]
  | cons o os ih => cases o <;> (simp [countMoves, ih]; try ring)

theorem countOK_append (a b : List Output) :
    countOK (a ++ b) = countOK a + countOK b := by
  induction a with
  | nil => simp [countOK]
  | cons o os ih => cases o <;> (simp [countOK, ih]; try ring)

theorem countHome_append (a b : List Output) :
    countHome (a ++ b) = countHome a + countHome b := by
  induction a with
  | nil => simp [countHome]
  | cons o os ih => cases o <;> (simp [countHome, ih]; try ring)

theorem dispatchPos_values (cmd : List Char) (p : Nat)
    (h : dispatchPos cmd = some p) :
    p = POS_PLASTICO ∨ p = POS_ORGANICO ∨ p = POS_METAL := by
  unfold dispatchPos at h
  split at h
  · exact Or.inl (Option.some.inj h).symm
  · split at h
    · exact Or.inr (Or.inl (Option.some.inj h).symm)
    · split at h
      · exact Or.inr (Or.inr (Option.some.inj h).symm)
      · exact absurd h (by simp)

theorem lastMoveOf_append_getD (a b : List Output) (x : Nat) :
    (lastMoveOf (a ++ b)).getD x = (lastMoveOf b).getD ((lastMoveOf a).getD x) := by
  induction a generalizing x with
  | nil => simp [lastMoveOf]
  | cons o os ih =>
    cases o with
    | moveTo p => simp [lastMoveOf, ih]
    | line m => simp [lastMoveOf, ih]

theorem loopTask1_servoPos (t1 : Nat) (s : SketchState) :
    (loopTask1 t1 s).1.servoPos = (lastMoveOf (loopTask1 t1 s).2).getD s.servoPos := by
  by_cases h : s.stringComplete = true
  · rcases hd : dispatchPos (trimString s.inputString) with _ | p
    · rw [loopTask1_nomatch t1 s h hd]
      simp [lastMoveOf]
    · rw [loopTask1_match t1 s p h hd]
      simp [lastMoveOf]
  · rw [loopTask1_not_complete t1 s (by simpa using h)]
    simp [lastMoveOf]

theorem loopTask2_servoPos (t2 : Nat) (s : SketchState) :
    (loopTask2 t2 s).1.servoPos = (lastMoveOf (loopTask2 t2 s).2).getD s.servoPos := by
  by_cases h : s.needsReturn = true ∧ RETURN_DELAY < elapsed32 t2 s.lastMoveTime
  · rw [loopTask2_fire t2 s h.1 h.2]
    simp [lastMoveOf]
  · rw [loopTask2_nofire t2 s h]
    simp [lastMoveOf]

theorem loopIter_servoPos (t1 t2 : Nat) (s : SketchState) :
    (loopIter t1 t2 s).1.servoPos = (lastMoveOf (loopIter t1 t2 s).2).getD s.servoPos := by
  calc (loopIter t1 t2 s).1.servoPos
      = (loopTask2 t2 (loopTask1 t1 s).1).1.servoPos := rfl
    _ = (lastMoveOf (loopTask2 t2 (loopTask1 t1 s).1).2).getD (loopTask1 t1 s).1.servoPos :=
        loopTask2_servoPos t2 _
    _ = (lastMoveOf (loopTask2 t2 (loopTask1 t1 s).1).2).getD
          ((lastMoveOf (loopTask1 t1 s).2).getD s.servoPos) := by
        rw [loopTask1_servoPos]
    _ = (lastMoveOf ((loopTask1 t1 s).2 ++ (loopTask2 t2 (loopTask1 t1 s).1).2)).getD
          s.servoPos := (lastMoveOf_append_getD _ _ _).symm
    _ = (lastMoveOf (loopIter t1 t2 s).2).getD s.servoPos := rfl

theorem stepEv_servoPos (s : SketchState) (e : Ev) :
    (stepEv s e).1.servoPos = (lastMoveOf (stepEv s e).2).getD s.servoPos := by
  cases e with
  | bytes bs =>
    show (serialEvent s bs).servoPos = (lastMoveOf []).getD s.servoPos
    rw [(serialEvent_preserves s bs).2.2]
    rfl
  | iter t1 t2 => exact loopIter_servoPos t1 t2 s

theorem run_servoPos (es : List Ev) (s : SketchState) :
    (run s es).1.servoPos = (lastMoveOf (run s es).2).getD s.servoPos := by
  induction es generalizing s with
  | nil => simp [run, lastMoveOf]
  | cons e es ih =>
    calc (run s (e :: es)).1.servoPos
        = (run (stepEv s e).1 es).1.servoPos := rfl
      _ = (lastMoveOf (run (stepEv s e).1 es).2).getD (stepEv s e).1.servoPos := ih _
      _ = (lastMoveOf (run (stepEv s e).1 es).2).getD
            ((lastMoveOf (stepEv s e).2).getD s.servoPos) := by rw [stepEv_servoPos]
      _ = (lastMoveOf ((stepEv s e).2 ++ (run (stepEv s e).1 es).2)).getD s.servoPos :=
          (lastMoveOf_append_getD _ _ _).symm
      _ = (lastMoveOf (run s (e :: es)).2).getD s.servoPos := rfl

theorem runIters_quiet (s : SketchState) (ts : List (Nat × Nat))
    (h1 : s.stringComplete = false) (h2 : s.needsReturn = false) :
    runIters s ts = (s, []) := by
  induction ts with
  | nil => rfl
  | cons t ts ih => simp [runIters, loopIter_quiet t.1 t.2 s h1 h2, ih]

theorem loopIter_complete_arm (t1 t2 : Nat) (s : SketchState)
    (h : s.stringComplete = true)
    (ht : elapsed32 t2 (t1 % U32) ≤ RETURN_DELAY) :
    (loopIter t1 t2 s).1.needsReturn = true ∧
    (loopIter t1 t2 s).1.lastMoveTime = t1 % U32 := by
  rcases hd : dispatchPos (trimString s.inputString) with _ | p
  · rw [loopIter, loopTask1_nomatch t1 s h hd,
        loopTask2_not_due t2 _ (by simpa [elapsed32] using ht)]
    exact ⟨rfl, rfl⟩
  · rw [loopIter, loopTask1_match t1 s p h hd,
        loopTask2_not_due t2 _ (by simpa [elapsed32] using ht)]
    exact ⟨rfl, rfl⟩

theorem loopIter_complete_ack (t1 t2 : Nat) (s : SketchState)
    (h : s.stringComplete = true) :
    countOK (loopIter t1 t2 s).2 = 1 ∧
    (loopIter t1 t2 s).1.inputString = [] ∧
    (loopIter t1 t2 s).1.stringComplete = false := by
  rcases hd : dispatchPos (trimString s.inputString) with _ | p
  · rw [loopIter, loopTask1_nomatch t1 s h hd]
    by_cases hf : ((⟨[], false, t1 % U32, true, s.servoPos⟩ : SketchState).needsReturn = true ∧
        RETURN_DELAY < elapsed32 t2 (⟨[], false, t1 % U32, true,
          s.servoPos⟩ : SketchState).lastMoveTime)
    · rw [loopTask2_fire _ _ hf.1 hf.2]
      exact ⟨by simp [countOK, countOK_append, homeMsg], rfl, rfl⟩
    · rw [loopTask2_nofire _ _ hf]
      exact ⟨by simp [countOK, countOK_append], rfl, rfl⟩
  · rw [loopIter, loopTask1_match t1 s p h hd]
    by_cases hf : ((⟨[], false, t1 % U32, true, p⟩ : SketchState).needsReturn = true ∧
        RETURN_DELAY < elapsed32 t2 (⟨[], false, t1 % U32, true, p⟩ : SketchState).lastMoveTime)
    · rw [loopTask2_fire _ _ hf.1 hf.2]
      exact ⟨by simp [countOK, countOK_append, homeMsg], rfl, rfl⟩
    · rw [loopTask2_nofire _ _ hf]
      exact ⟨by simp [countOK, countOK_append], rfl, rfl⟩

/-! ### Claims -/

/-- **C1 (counterexample).** The claim says an unrecognized line causes zero
`moveTo` calls "at every later time until another command is sent". On the
concrete input line `X` this fails: the dispatch itself emits one `OK` and no
move, but the command arms the return timer, so 4000 ms later (no further
command sent) the sketch performs a `moveTo POS_HOME` — one `moveTo` call. -/
theorem C1_counterexample :
    countOK (run initState [Ev.bytes "X\n".toList, Ev.iter 0 0, Ev.iter 4000 4000]).2 = 1 ∧
    countMoves (run initState [Ev.bytes "X\n".toList, Ev.iter 0 0, Ev.iter 4000 4000]).2 = 1 ∧
    (run initState [Ev.bytes "X\n".toList, Ev.iter 0 0, Ev.iter 4000 4000]).2 =
      [Output.line "OK", Output.line homeMsg, Output.moveTo POS_HOME] := by
  decide

/-- **C1 (amended).** For every unrecognized command string U (including the
empty string), sending the line U followed by the terminator results in
exactly one `OK` line and zero `moveTo` calls at dispatch time, the servo
position unchanged — but the Return-Timer is armed even by the unrecognized
command, so once the dwell elapses a single automatic `moveTo POS_HOME`
fires with no further command having been sent. -/
theorem C1_unrecognized_line (s : SketchState) (U : List Char) (t1 t2 u1 u2 : Nat)
    (hbuf : s.inputString = [])
    (hU : '\n' ∉ U)
    (hp : dispatchPos (trimString U) = none)
    (ht : elapsed32 t2 (t1 % U32) ≤ RETURN_DELAY)
    (hu : RETURN_DELAY < elapsed32 u2 (t1 % U32)) :
    (loopIter t1 t2 (serialEvent s (U ++ ['\n']))).2 = [Output.line "OK"] ∧
    countMoves (loopIter t1 t2 (serialEvent s (U ++ ['\n']))).2 = 0 ∧
    (loopIter t1 t2 (serialEvent s (U ++ ['\n']))).1.servoPos = s.servoPos ∧
    (loopIter t1 t2 (serialEvent s (U ++ ['\n']))).1.needsReturn = true ∧
    (loopIter u1 u2 (loopIter t1 t2 (serialEvent s (U ++ ['\n']))).1).2 =
      [Output.line homeMsg, Output.moveTo POS_HOME] := by
  rw [dispatch_line_nomatch s U t1 t2 hbuf hU hp ht]
  refine ⟨rfl, rfl, rfl, rfl, ?_⟩
  rw [loopIter_idle_fire u1 u2 _ rfl rfl hu]

/-- Witness for `C1_unrecognized_line` at the concrete unrecognized line `X`,
dispatched at time 0 and checked again at time 4000. -/
theorem C1_witness :
    (loopIter 0 0 (serialEvent initState ("X".toList ++ ['\n']))).2 = [Output.line "OK"] ∧
    countMoves (loopIter 0 0 (serialEvent initState ("X".toList ++ ['\n']))).2 = 0 ∧
    (loopIter 0 0 (serialEvent initState ("X".toList ++ ['\n']))).1.servoPos =
      initState.servoPos ∧
    (loopIter 0 0 (serialEvent initState ("X".toList ++ ['\n']))).1.needsReturn = true ∧
    (loopIter 4000 4000 (loopIter 0 0 (serialEvent initState ("X".toList ++ ['\n']))).1).2 =
      [Output.line homeMsg, Output.moveTo POS_HOME] :=
  C1_unrecognized_line initState "X".toList 0 0 4000 4000 rfl (by decide) (by decide)
    (by decide) (by decide)

/-- **C2 (counterexample).** The claim says one `OK` is emitted per inbound
newline-terminated line even when two terminated lines arrive in the same
drain of the serial buffer. On the concrete arrival `METAL\nMETAL\n` drained
in one `serialEvent` call this fails: the two lines' contents are merged into
the single buffered command `METALMETAL`, one `OK` is emitted for the two
inbound lines, and no `moveTo` happens although both lines read `METAL`. -/
theorem C2_counterexample :
    countOK (run initState [Ev.bytes "METAL\nMETAL\n".toList, Ev.iter 0 0, Ev.iter 1 1]).2
      = 1 ∧
    countMoves (run initState
      [Ev.bytes "METAL\nMETAL\n".toList, Ev.iter 0 0, Ev.iter 1 1]).2 = 0 ∧
    (run initState [Ev.bytes "METAL\nMETAL\n".toList, Ev.iter 0 0, Ev.iter 1 1]).2 =
      [Output.line "OK"] := by
  decide

/-- **C2 (amended).** Exactly one `OK` is emitted per completed input line
provided each terminated line is processed by a `loop()` iteration before
further bytes arrive: for any newline-free line content L, draining
`L` plus the terminator and then running one iteration emits exactly one
`OK`, and leaves the buffer empty with `stringComplete` cleared, so the next
line starts fresh (acknowledgment precedes processing of the next line).
When two terminated lines arrive in one drain this per-line correspondence
breaks (see the counterexample). -/
theorem C2_one_ok_per_line (s : SketchState) (L : List Char) (t1 t2 : Nat)
    (hL : '\n' ∉ L) :
    countOK (loopIter t1 t2 (serialEvent s (L ++ ['\n']))).2 = 1 ∧
    (loopIter t1 t2 (serialEvent s (L ++ ['\n']))).1.inputString = [] ∧
    (loopIter t1 t2 (serialEvent s (L ++ ['\n']))).1.stringComplete = false := by
  rw [serialEvent_line s L hL]
  exact loopIter_complete_ack t1 t2 _ rfl

/-- Witness for `C2_one_ok_per_line` at the concrete line `METAL`. -/
theorem C2_witness :
    countOK (loopIter 9 9 (serialEvent initState ("METAL".toList ++ ['\n']))).2 = 1 ∧
    (loopIter 9 9 (serialEvent initState ("METAL".toList ++ ['\n']))).1.inputString = [] ∧
    (loopIter 9 9 (serialEvent initState ("METAL".toList ++ ['\n']))).1.stringComplete
      = false :=
  C2_one_ok_per_line initState "METAL".toList 9 9 (by decide)

/-- **C3 (counterexample).** The claim says no input that fails to match a
recognized label ever arms the Return-Timer. On the concrete unrecognized
line `X` this fails: after dispatch at time 5 the timer is armed
(`needsReturn = true`) with dwell start 5, although `X` matches no label. -/
theorem C3_counterexample :
    dispatchPos (trimString "X".toList) = none ∧
    (run initState [Ev.bytes "X\n".toList, Ev.iter 5 5]).1.needsReturn = true ∧
    (run initState [Ev.bytes "X\n".toList, Ev.iter 5 5]).1.lastMoveTime = 5 := by
  decide

/-- **C3 (amended).** The Return-Timer transitions from Idle to Armed on
every completed command line — recognized or not, neutral or not — recording
the dispatch-time `millis()` reading as the dwell start; byte arrival alone
(`serialEvent`) never changes the timer state, so no transition is triggered
by anything other than elapsed time or a completed command. -/
theorem C3_arm_on_any_completed_command (s : SketchState) (t1 t2 : Nat) (bs : List Char)
    (hc : s.stringComplete = true)
    (ht : elapsed32 t2 (t1 % U32) ≤ RETURN_DELAY) :
    (loopIter t1 t2 s).1.needsReturn = true ∧
    (loopIter t1 t2 s).1.lastMoveTime = t1 % U32 ∧
    (serialEvent s bs).needsReturn = s.needsReturn ∧
    (serialEvent s bs).lastMoveTime = s.lastMoveTime :=
  ⟨(loopIter_complete_arm t1 t2 s hc ht).1, (loopIter_complete_arm t1 t2 s hc ht).2,
   (serialEvent_preserves s bs).1, (serialEvent_preserves s bs).2.1⟩

/-- Witness for `C3_arm_on_any_completed_command`: the buffered unrecognized
command `X`, dispatched at time 5. -/
theorem C3_witness :
    (loopIter 5 5 (⟨['X'], true, 0, false, 0⟩ : SketchState)).1.needsReturn = true ∧
    (loopIter 5 5 (⟨['X'], true, 0, false, 0⟩ : SketchState)).1.lastMoveTime = 5 % U32 ∧
    (serialEvent (⟨['X'], true, 0, false, 0⟩ : SketchState) ['A']).needsReturn =
      (⟨['X'], true, 0, false, 0⟩ : SketchState).needsReturn ∧
    (serialEvent (⟨['X'], true, 0, false, 0⟩ : SketchState) ['A']).lastMoveTime =
      (⟨['X'], true, 0, false, 0⟩ : SketchState).lastMoveTime :=
  C3_arm_on_any_completed_command ⟨['X'], true, 0, false, 0⟩ 5 5 ['A'] rfl (by decide)

/-- **C4 (confirmed).** For every recognized label L in
{PLASTICO, ORGANICO, METAL}, sending the line L followed by the terminator
from a quiescent state results in exactly one `moveTo` with the position
configured for L followed by exactly one `OK` line, and the servo ends at
that position (`t2` within the dwell so the same iteration does not also
auto-return). -/
theorem C4_recognized_line (s : SketchState) (L : List Char) (p t1 t2 : Nat)
    (hbuf : s.inputString = []) (hL : '\n' ∉ L)
    (hLp : L = "PLASTICO".toList ∧ p = POS_PLASTICO ∨
           L = "ORGANICO".toList ∧ p = POS_ORGANICO ∨
           L = "METAL".toList ∧ p = POS_METAL)
    (ht : elapsed32 t2 (t1 % U32) ≤ RETURN_DELAY) :
    (loopIter t1 t2 (serialEvent s (L ++ ['\n']))).2 =
      [Output.moveTo p, Output.line "OK"] ∧
    countOK (loopIter t1 t2 (serialEvent s (L ++ ['\n']))).2 = 1 ∧
    countMoves (loopIter t1 t2 (serialEvent s (L ++ ['\n']))).2 = 1 ∧
    (loopIter t1 t2 (serialEvent s (L ++ ['\n']))).1.servoPos = p := by
  have hp : dispatchPos (trimString L) = some p := by
    rcases hLp with ⟨rfl, rfl⟩ | ⟨rfl, rfl⟩ | ⟨rfl, rfl⟩ <;> decide
  rw [dispatch_line_match s L p t1 t2 hbuf hL hp ht]
  exact ⟨rfl, by simp [countOK], by simp [countMoves], rfl⟩

/-- Witness for `C4_recognized_line` at the concrete line `PLASTICO`. -/
theorem C4_witness :
    (loopIter 3 3 (serialEvent initState ("PLASTICO".toList ++ ['\n']))).2 =
      [Output.moveTo POS_PLASTICO, Output.line "OK"] ∧
    countOK (loopIter 3 3 (serialEvent initState ("PLASTICO".toList ++ ['\n']))).2 = 1 ∧
    countMoves (loopIter 3 3 (serialEvent initState ("PLASTICO".toList ++ ['\n']))).2 = 1 ∧
    (loopIter 3 3 (serialEvent initState ("PLASTICO".toList ++ ['\n']))).1.servoPos =
      POS_PLASTICO :=
  C4_recognized_line initState "PLASTICO".toList POS_PLASTICO 3 3 rfl (by decide)
    (Or.inl ⟨rfl, rfl⟩) (by decide)

/-- The event schedule of two commands dispatched at times `a` and `b`,
followed by two further idle loop iterations at times `c` and `d`. -/
def rearmEvents (L1 L2 : List Char) (a b c d : Nat) : List Ev :=
  [Ev.bytes (L1 ++ ['\n']), Ev.iter a a, Ev.bytes (L2 ++ ['\n']),
   Ev.iter b b, Ev.iter c c, Ev.iter d d]

/-- **C5 (confirmed).** When a second accepted command arrives while the
Return-Timer is already armed and before the dwell elapses, the dwell start
is reset to the second command's time: the automatic return fires exactly
once, timed from the second command. Concretely, over the schedule
`rearmEvents L1 L2 a b c d`: if at time `c` the dwell has elapsed since `b`,
exactly one `moveTo POS_HOME` fires (and the trace is exactly two command
dispatches plus one auto-return); if at times `c` and `d` the dwell since
`b` has not elapsed, no auto-return fires at all — even for arbitrarily
large elapsed time since the first command `a`. -/
theorem C5_rearm_single_return (L1 L2 : List Char) (p1 p2 a b c d : Nat)
    (h1 : '\n' ∉ L1) (h2 : '\n' ∉ L2)
    (hp1 : dispatchPos (trimString L1) = some p1)
    (hp2 : dispatchPos (trimString L2) = some p2)
    (_hab : elapsed32 b (a % U32) ≤ RETURN_DELAY) :
    (RETURN_DELAY < elapsed32 c (b % U32) →
      (run initState (rearmEvents L1 L2 a b c d)).2 =
        [Output.moveTo p1, Output.line "OK", Output.moveTo p2, Output.line "OK",
         Output.line homeMsg, Output.moveTo POS_HOME] ∧
      countHome (run initState (rearmEvents L1 L2 a b c d)).2 = 1 ∧
      (run initState (rearmEvents L1 L2 a b c d)).1.needsReturn = false ∧
      (run initState (rearmEvents L1 L2 a b c d)).1.servoPos = POS_HOME) ∧
    (elapsed32 c (b % U32) ≤ RETURN_DELAY → elapsed32 d (b % U32) ≤ RETURN_DELAY →
      countHome (run initState (rearmEvents L1 L2 a b c d)).2 = 0 ∧
      (run initState (rearmEvents L1 L2 a b c d)).1.needsReturn = true ∧
      (run initState (rearmEvents L1 L2 a b c d)).1.servoPos = p2) := by
  have hp1ne : p1 ≠ POS_HOME := by
    rcases dispatchPos_values _ _ hp1 with rfl | rfl | rfl <;> decide
  have hp2ne : p2 ≠ POS_HOME := by
    rcases dispatchPos_values _ _ hp2 with rfl | rfl | rfl <;> decide
  have E1 : stepEv initState (Ev.bytes (L1 ++ ['\n'])) =
      (⟨L1, true, 0, false, POS_HOME⟩, []) := by
    show (serialEvent initState (L1 ++ ['\n']), []) = _
    rw [serialEvent_line initState L1 h1]
    rfl
  have E2 : stepEv (⟨L1, true, 0, false, POS_HOME⟩ : SketchState) (Ev.iter a a) =
      (⟨[], false, a % U32, true, p1⟩, [Output.moveTo p1, Output.line "OK"]) := by
    show loopIter a a _ = _
    rw [loopIter, loopTask1_match a _ p1 rfl hp1,
        loopTask2_not_due a _ (by simp [elapsed32_self])]
    rfl
  have E3 : stepEv (⟨[], false, a % U32, true, p1⟩ : SketchState)
      (Ev.bytes (L2 ++ ['\n'])) = (⟨L2, true, a % U32, true, p1⟩, []) := by
    show (serialEvent _ (L2 ++ ['\n']), []) = _
    rw [serialEvent_line _ L2 h2]
    rfl
  have E4 : stepEv (⟨L2, true, a % U32, true, p1⟩ : SketchState) (Ev.iter b b) =
      (⟨[], false, b % U32, true, p2⟩, [Output.moveTo p2, Output.line "OK"]) := by
    show loopIter b b _ = _
    rw [loopIter, loopTask1_match b _ p2 rfl hp2,
        loopTask2_not_due b _ (by simp [elapsed32_self])]
    rfl
  constructor
  · intro hdue
    have E5 : stepEv (⟨[], false, b % U32, true, p2⟩ : SketchState) (Ev.iter c c) =
        (⟨[], false, b % U32, false, POS_HOME⟩,
         [Output.line homeMsg, Output.moveTo POS_HOME]) := by
      show loopIter c c _ = _
      rw [loopIter_idle_fire c c _ rfl rfl hdue]
    have E6 : stepEv (⟨[], false, b % U32, false, POS_HOME⟩ : SketchState)
        (Ev.iter d d) = (⟨[], false, b % U32, false, POS_HOME⟩, []) := by
      show loopIter d d _ = _
      rw [loopIter_quiet d d _ rfl rfl]
    have Hrun : run initState (rearmEvents L1 L2 a b c d) =
        (⟨[], false, b % U32, false, POS_HOME⟩,
         [Output.moveTo p1, Output.line "OK", Output.moveTo p2, Output.line "OK",
          Output.line homeMsg, Output.moveTo POS_HOME]) := by
      have := run_eq_of_step E1 (run_eq_of_step E2 (run_eq_of_step E3
        (run_eq_of_step E4 (run_eq_of_step E5 (run_eq_of_step E6 (run_nil _))))))
      simpa [rearmEvents] using this
    rw [Hrun]
    exact ⟨rfl, by simp [countHome, hp1ne, hp2ne], rfl, rfl⟩
  · intro hc1 hd1
    have E5 : stepEv (⟨[], false, b % U32, true, p2⟩ : SketchState) (Ev.iter c c) =
        (⟨[], false, b % U32, true, p2⟩, []) := by
      show loopIter c c _ = _
      rw [loopIter_idle_not_due c c _ rfl hc1]
    have E6 : stepEv (⟨[], false, b % U32, true, p2⟩ : SketchState) (Ev.iter d d) =
        (⟨[], false, b % U32, true, p2⟩, []) := by
      show loopIter d d _ = _
      rw [loopIter_idle_not_due d d _ rfl hd1]
    have Hrun : run initState (rearmEvents L1 L2 a b c d) =
        (⟨[], false, b % U32, true, p2⟩,
         [Output.moveTo p1, Output.line "OK", Output.moveTo p2, Output.line "OK"]) := by
      have := run_eq_of_step E1 (run_eq_of_step E2 (run_eq_of_step E3
        (run_eq_of_step E4 (run_eq_of_step E5 (run_eq_of_step E6 (run_nil _))))))
      simpa [rearmEvents] using this
    rw [Hrun]
    exact ⟨by simp [countHome, hp1ne, hp2ne], rfl, rfl⟩

/-- Witness for `C5_rearm_single_return`: `METAL` at time 0, `METAL` again at
time 1000 (within the dwell), checks at 4001 and 4002 ms. -/
theorem C5_witness :
    (RETURN_DELAY < elapsed32 4001 (1000 % U32) →
      (run initState (rearmEvents "METAL".toList "METAL".toList 0 1000 4001 4002)).2 =
        [Output.moveTo POS_METAL, Output.line "OK", Output.moveTo POS_METAL,
         Output.line "OK", Output.line homeMsg, Output.moveTo POS_HOME] ∧
      countHome (run initState
        (rearmEvents "METAL".toList "METAL".toList 0 1000 4001 4002)).2 = 1 ∧
      (run initState
        (rearmEvents "METAL".toList "METAL".toList 0 1000 4001 4002)).1.needsReturn
        = false ∧
      (run initState
        (rearmEvents "METAL".toList "METAL".toList 0 1000 4001 4002)).1.servoPos
        = POS_HOME) ∧
    (elapsed32 4001 (1000 % U32) ≤ RETURN_DELAY →
      elapsed32 4002 (1000 % U32) ≤ RETURN_DELAY →
      countHome (run initState
        (rearmEvents "METAL".toList "METAL".toList 0 1000 4001 4002)).2 = 0 ∧
      (run initState
        (rearmEvents "METAL".toList "METAL".toList 0 1000 4001 4002)).1.needsReturn
        = true ∧
      (run initState
        (rearmEvents "METAL".toList "METAL".toList 0 1000 4001 4002)).1.servoPos
        = POS_METAL) :=
  C5_rearm_single_return "METAL".toList "METAL".toList POS_METAL POS_METAL 0 1000 4001 4002
    (by decide) (by decide) (by decide) (by decide) (by decide)

/-- **C6 (confirmed).** Over any sequence of `loop()` iterations with no new
command completing (`stringComplete` is clear), the automatic return fires at
most once (`countMoves ≤ 1`), every `moveTo` it issues is exactly to the
neutral position (`countHome = countMoves`), and if it fired at all then the
timer was armed at the start and some iteration observed an elapsed time
since the dwell start strictly above the configured dwell duration. -/
theorem C6_autoreturn_once_only_neutral (s : SketchState) (ts : List (Nat × Nat))
    (hc : s.stringComplete = false) :
    countMoves (runIters s ts).2 ≤ 1 ∧
    countHome (runIters s ts).2 = countMoves (runIters s ts).2 ∧
    (countMoves (runIters s ts).2 = 1 →
      s.needsReturn = true ∧
      ∃ t ∈ ts, RETURN_DELAY < elapsed32 t.2 s.lastMoveTime) := by
  induction ts generalizing s with
  | nil =>
    exact ⟨by simp [runIters, countMoves], by simp [runIters, countMoves, countHome],
           by simp [runIters, countMoves]⟩
  | cons t ts ih =>
    by_cases hf : s.needsReturn = true ∧ RETURN_DELAY < elapsed32 t.2 s.lastMoveTime
    · have hiter := loopIter_idle_fire t.1 t.2 s hc hf.1 hf.2
      have hquiet := runIters_quiet
        ({ s with servoPos := POS_HOME, needsReturn := false }) ts hc rfl
      have hrun : runIters s (t :: ts) =
          ({ s with servoPos := POS_HOME, needsReturn := false },
           [Output.line homeMsg, Output.moveTo POS_HOME]) := by
        simp [runIters, hiter, hquiet]
      rw [hrun]
      refine ⟨by simp [countMoves], by simp [countMoves, countHome], ?_⟩
      intro _
      exact ⟨hf.1, ⟨t, List.mem_cons_self _ _, hf.2⟩⟩
    · have hiter : loopIter t.1 t.2 s = (s, []) := by
        rw [loopIter, loopTask1_not_complete t.1 s hc, loopTask2_nofire t.2 s hf]
        rfl
      have hrun : runIters s (t :: ts) = runIters s ts := by
        simp [runIters, hiter]
      rw [hrun]
      rcases ih s hc with ⟨ih1, ih2, ih3⟩
      refine ⟨ih1, ih2, ?_⟩
      intro h1
      rcases ih3 h1 with ⟨ha, t', ht', he⟩
      exact ⟨ha, ⟨t', List.mem_cons_of_mem _ ht', he⟩⟩

/-- Witness for `C6_autoreturn_once_only_neutral`: an armed state (dwell
start 0, servo at the metal position) observed at times 4000 and 5000. -/
theorem C6_witness :
    countMoves (runIters (⟨[], false, 0, true, POS_METAL⟩ : SketchState)
      [(4000, 4000), (5000, 5000)]).2 ≤ 1 ∧
    countHome (runIters (⟨[], false, 0, true, POS_METAL⟩ : SketchState)
      [(4000, 4000), (5000, 5000)]).2 =
      countMoves (runIters (⟨[], false, 0, true, POS_METAL⟩ : SketchState)
        [(4000, 4000), (5000, 5000)]).2 ∧
    (countMoves (runIters (⟨[], false, 0, true, POS_METAL⟩ : SketchState)
      [(4000, 4000), (5000, 5000)]).2 = 1 →
      (⟨[], false, 0, true, POS_METAL⟩ : SketchState).needsReturn = true ∧
      ∃ t ∈ [((4000 : Nat), (4000 : Nat)), (5000, 5000)],
        RETURN_DELAY < elapsed32 t.2
          (⟨[], false, 0, true, POS_METAL⟩ : SketchState).lastMoveTime) :=
  C6_autoreturn_once_only_neutral ⟨[], false, 0, true, POS_METAL⟩
    [(4000, 4000), (5000, 5000)] rfl

/-- **C7 (confirmed).** In every state reachable from startup by any event
schedule, the servo position equals exactly the position of the last `moveTo`
call (the neutral `POS_HOME` before any call, and again neutral right after a
return fires, since the return's own `moveTo POS_HOME` is then the last
call); and there is a single pending-return flag: when a completed command is
dispatched, the timer is re-armed with its dwell start overwritten to the new
dispatch time — no second pending return is stacked. -/
theorem C7_position_invariant (es : List Ev) (t1 t2 : Nat)
    (ht : elapsed32 t2 (t1 % U32) ≤ RETURN_DELAY) :
    (run initState es).1.servoPos = (lastMoveOf (run initState es).2).getD POS_HOME ∧
    ((run initState es).1.stringComplete = true →
      (run initState (es ++ [Ev.iter t1 t2])).1.needsReturn = true ∧
      (run initState (es ++ [Ev.iter t1 t2])).1.lastMoveTime = t1 % U32) := by
  refine ⟨run_servoPos es initState, ?_⟩
  intro h
  rw [run_append]
  show (loopIter t1 t2 (run initState es).1).1.needsReturn = true ∧
       (loopIter t1 t2 (run initState es).1).1.lastMoveTime = t1 % U32
  exact loopIter_complete_arm t1 t2 _ h ht

/-- Witness for `C7_position_invariant`: the schedule that drains `METAL`
plus terminator, then one loop iteration at time 7. -/
theorem C7_witness :
    (run initState [Ev.bytes "METAL\n".toList]).1.servoPos =
      (lastMoveOf (run initState [Ev.bytes "METAL\n".toList]).2).getD POS_HOME ∧
    ((run initState [Ev.bytes "METAL\n".toList]).1.stringComplete = true →
      (run initState ([Ev.bytes "METAL\n".toList] ++ [Ev.iter 7 7])).1.needsReturn
        = true ∧
      (run initState ([Ev.bytes "METAL\n".toList] ++ [Ev.iter 7 7])).1.lastMoveTime
        = 7 % U32) :=
  C7_position_invariant [Ev.bytes "METAL\n".toList] 7 7 (by decide)

/-- **C8 (confirmed).** Processing commutes with concatenation of byte
chunks: delivering the bytes of a line in two separate `serialEvent` drains
gives exactly the same state and exactly the same outputs, under any
continuation of the execution, as delivering them in one drain — so
dispatch, acknowledgment and actuation behavior coincide. -/
theorem C8_chunked_input_equiv (s : SketchState) (b1 b2 : List Char) (es : List Ev) :
    run s (Ev.bytes (b1 ++ b2) :: es) = run s (Ev.bytes b1 :: Ev.bytes b2 :: es) := by
  simp [run, stepEv, serialEvent_append]

/-- **C9 (counterexample).** The claim says the dispatcher matches the line
content with leading/trailing whitespace *and control characters* stripped.
On the concrete line `\x01PLASTICO` this fails: stripping whitespace and
control characters (the spec's wording, `specStrip`) yields `PLASTICO`, so
per the claim the plastic position should be actuated — but the code's
`trim` (Arduino `isspace`) does not strip `\x01`, no label matches, and
nothing is actuated (`OK` is still emitted). -/
theorem C9_counterexample :
    specStrip ('\x01' :: "PLASTICO".toList) = "PLASTICO".toList ∧
    trimString ('\x01' :: "PLASTICO".toList) ≠ "PLASTICO".toList ∧
    countMoves (run initState
      [Ev.bytes ('\x01' :: "PLASTICO\n".toList), Ev.iter 0 0]).2 = 0 ∧
    countOK (run initState
      [Ev.bytes ('\x01' :: "PLASTICO\n".toList), Ev.iter 0 0]).2 = 1 := by
  decide

/-- **C9 (amended).** The dispatcher matches the completed line content with
leading and trailing *whitespace* characters stripped (space, tab, LF,
vertical tab, form feed, CR — other control characters are not stripped),
and the match is exact and case-sensitive: a line whose trimmed content is
`PLASTICO`, `ORGANICO` or `METAL` actuates exactly the corresponding
position, and any other trimmed content (case variants included) actuates
nothing while still being acknowledged. -/
theorem C9_trim_and_exact_match (s : SketchState) (L : List Char) (t1 t2 : Nat)
    (hbuf : s.inputString = []) (hL : '\n' ∉ L)
    (ht : elapsed32 t2 (t1 % U32) ≤ RETURN_DELAY) :
    (trimString L = "PLASTICO".toList →
      (loopIter t1 t2 (serialEvent s (L ++ ['\n']))).2 =
        [Output.moveTo POS_PLASTICO, Output.line "OK"]) ∧
    (trimString L = "ORGANICO".toList →
      (loopIter t1 t2 (serialEvent s (L ++ ['\n']))).2 =
        [Output.moveTo POS_ORGANICO, Output.line "OK"]) ∧
    (trimString L = "METAL".toList →
      (loopIter t1 t2 (serialEvent s (L ++ ['\n']))).2 =
        [Output.moveTo POS_METAL, Output.line "OK"]) ∧
    (trimString L ≠ "PLASTICO".toList → trimString L ≠ "ORGANICO".toList →
      trimString L ≠ "METAL".toList →
      (loopIter t1 t2 (serialEvent s (L ++ ['\n']))).2 = [Output.line "OK"] ∧
      countMoves (loopIter t1 t2 (serialEvent s (L ++ ['\n']))).2 = 0) := by
  refine ⟨?_, ?_, ?_, ?_⟩
  · intro h
    rw [dispatch_line_match s L POS_PLASTICO t1 t2 hbuf hL (by simp [dispatchPos, h]) ht]
  · intro h
    rw [dispatch_line_match s L POS_ORGANICO t1 t2 hbuf hL
      (by simp [dispatchPos, h]) ht]
  · intro h
    rw [dispatch_line_match s L POS_METAL t1 t2 hbuf hL
      (by simp [dispatchPos, h]) ht]
  · intro h1 h2 h3
    have hp : dispatchPos (trimString L) = none := by
      unfold dispatchPos
      rw [if_neg h1, if_neg h2, if_neg h3]
    rw [dispatch_line_nomatch s L t1 t2 hbuf hL hp ht]
    exact ⟨rfl, rfl⟩

/-- Witness for `C9_trim_and_exact_match`: the concrete line
`(space)METAL(space)(CR)`, whose `isspace`-trimmed content is `METAL`. -/
theorem C9_witness :
    (trimString " METAL \r".toList = "PLASTICO".toList →
      (loopIter 2 2 (serialEvent initState (" METAL \r".toList ++ ['\n']))).2 =
        [Output.moveTo POS_PLASTICO, Output.line "OK"]) ∧
    (trimString " METAL \r".toList = "ORGANICO".toList →
      (loopIter 2 2 (serialEvent initState (" METAL \r".toList ++ ['\n']))).2 =
        [Output.moveTo POS_ORGANICO, Output.line "OK"]) ∧
    (trimString " METAL \r".toList = "METAL".toList →
      (loopIter 2 2 (serialEvent initState (" METAL \r".toList ++ ['\n']))).2 =
        [Output.moveTo POS_METAL, Output.line "OK"]) ∧
    (trimString " METAL \r".toList ≠ "PLASTICO".toList →
      trimString " METAL \r".toList ≠ "ORGANICO".toList →
      trimString " METAL \r".toList ≠ "METAL".toList →
      (loopIter 2 2 (serialEvent initState (" METAL \r".toList ++ ['\n']))).2 =
        [Output.line "OK"] ∧
      countMoves (loopIter 2 2 (serialEvent initState
        (" METAL \r".toList ++ ['\n']))).2 = 0) :=
  C9_trim_and_exact_match initState " METAL \r".toList 2 2 rfl (by decide) (by decide)

/-- **C10 (confirmed).** The dwell check computes `millis() - lastMoveTime`
in unsigned 32-bit modular arithmetic: whenever the true elapsed time
`tNow - tLast` is less than `2^32`, the 32-bit difference equals the true
elapsed time even when the stored 32-bit timestamps wrap around, and the
auto-return condition of `loop()` task 2 holds exactly when the true
elapsed time exceeds the dwell duration. -/
theorem C10_wraparound_elapsed (tLast tNow : Nat) (s : SketchState)
    (hle : tLast ≤ tNow) (hspan : tNow - tLast < U32)
    (hn : s.needsReturn = true) (hlast : s.lastMoveTime = tLast % U32) :
    elapsed32 tNow s.lastMoveTime = tNow - tLast ∧
    ((loopTask2 tNow s).2 ≠ [] ↔ RETURN_DELAY < tNow - tLast) := by
  have h32 : U32 = 4294967296 := rfl
  have he : elapsed32 tNow (tLast % U32) = tNow - tLast := by
    simp only [elapsed32, h32] at hspan ⊢
    omega
  refine ⟨by rw [hlast]; exact he, ?_⟩
  by_cases hcond : RETURN_DELAY < tNow - tLast
  · rw [loopTask2_fire tNow s hn (by rw [hlast, he]; exact hcond)]
    simp [hcond]
  · rw [loopTask2_not_due tNow s (by rw [hlast, he]; omega)]
    simp [hcond]

/-- Witness for `C10_wraparound_elapsed` across a counter wrap: the command
arrived at absolute time `2^32 - 1000` (stored as such), the check happens at
absolute time `2^32 + 3001` (stored as 3001): the 32-bit difference is 4001,
which exceeds the 3000 ms dwell, so the return fires although the stored
"now" (3001) is numerically smaller than the stored dwell start. -/
theorem C10_witness :
    elapsed32 4294970297
      (⟨[], false, 4294966296, true, POS_PLASTICO⟩ : SketchState).lastMoveTime =
      4294970297 - 4294966296 ∧
    ((loopTask2 4294970297 (⟨[], false, 4294966296, true, POS_PLASTICO⟩ :
        SketchState)).2 ≠ [] ↔
      RETURN_DELAY < 4294970297 - 4294966296) :=
  C10_wraparound_elapsed 4294966296 4294970297 ⟨[], false, 4294966296, true, POS_PLASTICO⟩
    (by decide) (by decide) rfl (by decide)
